import Mathlib

/-!
Verification of the pytrak design specification.

The repository ships only example scripts (`examples/simple_example.py`,
`examples/trakstar_example.py`) that call the `pytrak` wrapper; the wrapper
itself is not among the supplied sources.  The specification describes, at
design level, the device-session core those scripts imply: a Transport/Handle
layer, a Sensor Registry and a Sampling Session.  We embed that core here.
Definitions whose doc comment starts with `Modelled from the spec:` embed the
missing wrapper faithfully to the specification's words; the definitions for
the example scripts' own consumption pattern are embedded from the Python
source directly.

Numeric device values (positions, orientations, rates) are modelled as `Rat`:
no claim depends on floating-point rounding, only on storage and round-trip
of the values.
-/

namespace Pytrak

/-- Modelled from the spec: the error taxonomy of section 7
(`DeviceUnavailable`, `ConfigRejected`, `InvalidParameter`, `UnknownSensor`,
`ReadTimeout`, `SweepPartialFailure`). -/
inductive TrakError where
  | deviceUnavailable
  | configRejected
  | invalidParameter
  | unknownSensor
  | readTimeout
  | sweepPartialFailure
deriving DecidableEq

/-- Modelled from the spec: per-sensor output mode enumeration
`{Quaternion, EulerAngles, RotationMatrix}`. -/
inductive OutputMode where
  | quaternion
  | eulerAngles
  | rotationMatrix
deriving DecidableEq

/-- Modelled from the spec: hemisphere enumeration `{Front, Back}`. -/
inductive Hemisphere where
  | front
  | back
deriving DecidableEq

/-- Modelled from the spec: device-wide maximum range enumeration
`{36in, 72in}`. -/
inductive MaxRange where
  | inch36
  | inch72
deriving DecidableEq

/-- Modelled from the spec: the Sensor Descriptor record
`{id, attached, output_mode, hemisphere}` owned by the Sensor Registry. -/
structure SensorDescriptor where
  id : Nat
  attached : Bool
  output_mode : OutputMode
  hemisphere : Hemisphere
deriving DecidableEq

/-- Modelled from the spec: orientation payload, one closed variant per
configured output mode (design note of section 9: one decode path per
variant). -/
inductive OrientData where
  | quat (q0 q1 q2 q3 : Rat)
  | euler (azimuth elevation roll : Rat)
  | matrix (entries : List Rat)
deriving DecidableEq

/-- Modelled from the spec: the typed pose payload of a successful read:
position `(x, y, z)` in device units plus the orientation variant matching
the sensor's configured output mode. -/
structure PoseData where
  position : Rat × Rat × Rat
  orient : OrientData
deriving DecidableEq

/-- Modelled from the spec: the tagged result carried by a `PoseSample`
(design note of section 9): either valid typed pose data or a failure
marker, never both. -/
inductive PoseResult where
  | ok (data : PoseData)
  | failed
deriving DecidableEq

/-- Modelled from the spec: the immutable Pose Sample value
`{sensor_id, position/orientation payload, success, timestamp}`.  Following
the design note of section 9, `success` is not a stored field: it is derived
from the variant tag of `result` (see `PoseSample.success`). -/
structure PoseSample where
  sensor_id : Nat
  result : PoseResult
  timestamp : Nat
deriving DecidableEq

/-- Modelled from the spec: the `success` flag of a Pose Sample, derivable
from the variant tag rather than stored as an independent field. -/
def PoseSample.success (p : PoseSample) : Bool :=
  match p.result with
  | PoseResult.ok _ => true
  | PoseResult.failed => false

/-- Modelled from the spec: raw sample bytes returned by `read_raw`,
abstracted as the numeric fields the decoder can extract from them (the
vendor wire format is an explicit non-goal of the spec). -/
structure RawSample where
  px : Rat
  py : Rat
  pz : Rat
  q0 : Rat
  q1 : Rat
  q2 : Rat
  q3 : Rat
  azimuth : Rat
  elevation : Rat
  roll : Rat
  mat : List Rat
deriving DecidableEq

/-- Modelled from the spec: the per-read transport behaviour seen by one
sweep: for each sensor id, `read_raw` either yields raw sample bytes or
fails (e.g. with `ReadTimeout`). -/
def Transport : Type := Nat → Except TrakError RawSample

/-- Modelled from the spec: decoding a raw sample according to the sensor's
current output mode — one decode path per variant. -/
def decodeRaw (mode : OutputMode) (raw : RawSample) : OrientData :=
  match mode with
  | OutputMode.quaternion => OrientData.quat raw.q0 raw.q1 raw.q2 raw.q3
  | OutputMode.eulerAngles => OrientData.euler raw.azimuth raw.elevation raw.roll
  | OutputMode.rotationMatrix => OrientData.matrix raw.mat

/-- Modelled from the spec: a config write forwarded to the transport layer
(`write_config`). -/
inductive ConfigWrite where
  | outputMode (sid : Nat) (m : OutputMode)
  | hemisphereCfg (sid : Nat) (h : Hemisphere)
  | measurementRate (rate : Rat)
  | maximumRange (mr : MaxRange)
deriving DecidableEq

/-- Modelled from the spec: the Sensor Registry plus the device-wide Session
Configuration `{measurement_rate_hz, max_range}`. -/
structure Registry where
  sensors : List SensorDescriptor
  measurement_rate_hz : Rat
  max_range : MaxRange
deriving DecidableEq

/-- Modelled from the spec: result of one stateful configuration call: the
registry after the call, the `write_config` commands issued, and the error,
if any.  Failure leaves the registry component equal to the input registry
(configuration calls fail "without mutating state"). -/
structure SetResult where
  registry : Registry
  writes : List ConfigWrite
  err : Option TrakError
deriving DecidableEq

/-- Modelled from the spec: `enumerate_sensors` queried once at session
start, producing an ordered sequence of descriptors with ids `0..N-1`
reflecting physical attachment. -/
def enumerate_sensors (attach : List Bool) : List SensorDescriptor :=
  (List.range attach.length).map fun i =>
    { id := i
      attached := attach.getD i false
      output_mode := OutputMode.quaternion
      hemisphere := Hemisphere.front }

/-- Modelled from the spec: a registry freshly built from the enumerated
descriptors and the session configuration. -/
def Registry.init (descs : List SensorDescriptor) (rate : Rat) (mr : MaxRange) : Registry :=
  { sensors := descs, measurement_rate_hz := rate, max_range := mr }

/-- Modelled from the spec: `set_output_mode(sensor_id, mode)` updates the
descriptor and issues the corresponding `write_config`; fails with
`UnknownSensor` if `sensor_id` is out of the enumerated range. -/
def Registry.set_output_mode (r : Registry) (sid : Nat) (m : OutputMode) : SetResult :=
  match r.sensors[sid]? with
  | none => { registry := r, writes := [], err := some TrakError.unknownSensor }
  | some d =>
      { registry := { r with sensors := r.sensors.set sid { d with output_mode := m } }
        writes := [ConfigWrite.outputMode sid m]
        err := none }

/-- Modelled from the spec: `set_hemisphere(sensor_id, hemisphere)` updates
the descriptor and forwards the config; fails with `UnknownSensor` for an
out-of-range id. -/
def Registry.set_sensor_hemisphere (r : Registry) (sid : Nat) (h : Hemisphere) : SetResult :=
  match r.sensors[sid]? with
  | none => { registry := r, writes := [], err := some TrakError.unknownSensor }
  | some d =>
      { registry := { r with sensors := r.sensors.set sid { d with hemisphere := h } }
        writes := [ConfigWrite.hemisphereCfg sid h]
        err := none }

/-- Modelled from the spec: `set_measurement_rate(rate)` validates
`rate > 0` before forwarding; fails with `InvalidParameter` otherwise,
without mutating state. -/
def Registry.set_measurement_rate (r : Registry) (rate : Rat) : SetResult :=
  if 0 < rate then
    { registry := { r with measurement_rate_hz := rate }
      writes := [ConfigWrite.measurementRate rate]
      err := none }
  else
    { registry := r, writes := [], err := some TrakError.invalidParameter }

/-- Modelled from the spec: `set_max_range(range)`; the range is a closed
enumeration, so every value is valid and the call always succeeds. -/
def Registry.set_max_range (r : Registry) (mr : MaxRange) : SetResult :=
  { registry := { r with max_range := mr }
    writes := [ConfigWrite.maximumRange mr]
    err := none }

/-- Modelled from the spec: reading the stored measurement rate back. -/
def Registry.get_measurement_rate (r : Registry) : Rat :=
  r.measurement_rate_hz

/-- Modelled from the spec: `sample(sensor_id)` calls `read_raw`, decodes
according to the sensor's current `output_mode`; on transport failure it
returns a Pose Sample with `success = false` rather than propagating. -/
def Registry.sample (r : Registry) (t : Transport) (now : Nat) (sid : Nat) : PoseSample :=
  match r.sensors[sid]? with
  | none => { sensor_id := sid, result := PoseResult.failed, timestamp := now }
  | some d =>
      match t sid with
      | Except.error _ => { sensor_id := sid, result := PoseResult.failed, timestamp := now }
      | Except.ok raw =>
          { sensor_id := sid
            result := PoseResult.ok
              { position := (raw.px, raw.py, raw.pz)
                orient := decodeRaw d.output_mode raw }
            timestamp := now }

/-- Modelled from the spec: one sweep's aggregate result: the ordered
samples, one per enumerated sensor, plus the aggregate `success` flag,
true exactly when every element's `success` is true. -/
structure Sweep where
  samples : List PoseSample
  success : Bool
deriving DecidableEq

/-- Modelled from the spec: `sample_all()` returns an ordered sequence of
Pose Samples, one per enumerated sensor, preserving enumeration order;
partial results are always returned. -/
def Registry.sample_all (r : Registry) (t : Transport) (now : Nat) : Sweep :=
  let samples := (List.range r.sensors.length).map (r.sample t now)
  { samples := samples, success := samples.all PoseSample.success }

/-- Modelled from the spec: the Device Handle of the Transport/Handle layer.
`isOpen` tracks whether the exclusively-owned hardware resource is currently
held; `releaseCount` counts the actual hardware release operations
performed, so that "releases exactly once" is observable. -/
structure Handle where
  isOpen : Bool
  releaseCount : Nat
deriving DecidableEq

/-- Modelled from the spec: `open()` of the Transport layer: yields an open
handle, or fails with `DeviceUnavailable` when the hardware is absent; after
a failed open the handle holds no resource. -/
def open_handle (deviceAvailable : Bool) : Handle × Option TrakError :=
  if deviceAvailable then
    ({ isOpen := true, releaseCount := 0 }, none)
  else
    ({ isOpen := false, releaseCount := 0 }, some TrakError.deviceUnavailable)

/-- Modelled from the spec: `close(handle)` releases the resource;
idempotent; safe to call after a failed open (no-op).  The release operation
is performed only when the resource is actually held. -/
def close (h : Handle) : Handle :=
  if h.isOpen then { isOpen := false, releaseCount := h.releaseCount + 1 }
  else h

/-- Modelled from the spec: the Sampling Session state machine
`Uninitialized → Configuring → Sampling → Stopped`, with terminal `Failed`
when the transition out of `Uninitialized` cannot be taken. -/
inductive SessionState where
  | uninitialized
  | configuring
  | sampling
  | stopped
  | failed
deriving DecidableEq

/-- Modelled from the spec: the Sampling Session: orchestration state,
registry, exclusively-owned handle, the count of consecutive total
transport failures, and the configured retry budget. -/
structure Session where
  state : SessionState
  registry : Registry
  handle : Handle
  consecTimeouts : Nat
  retryBudget : Nat
deriving DecidableEq

/-- Modelled from the spec: a sweep counts as a transport-level failure when
there is at least one sensor and every sample of the sweep failed (every
`read_raw` call timed out). -/
def sweepTotalFailure (sw : Sweep) : Bool :=
  !sw.samples.isEmpty && sw.samples.all fun p => !p.success

/-- Modelled from the spec: `open_session`: `Uninitialized → Configuring` on
`open()` success; the session stays in terminal `Failed`, surfacing the
error to the caller, if `open()` fails or zero sensors are enumerated. -/
def open_session (deviceAvailable : Bool) (attach : List Bool) (rate : Rat)
    (mr : MaxRange) (budget : Nat) : Session × Option TrakError :=
  let (h, he) := open_handle deviceAvailable
  let descs := enumerate_sensors attach
  match he with
  | some e =>
      ({ state := SessionState.failed
         registry := Registry.init descs rate mr
         handle := h
         consecTimeouts := 0
         retryBudget := budget }, some e)
  | none =>
      if descs.isEmpty then
        ({ state := SessionState.failed
           registry := Registry.init descs rate mr
           handle := h
           consecTimeouts := 0
           retryBudget := budget }, some TrakError.deviceUnavailable)
      else
        ({ state := SessionState.configuring
           registry := Registry.init descs rate mr
           handle := h
           consecTimeouts := 0
           retryBudget := budget }, none)

/-- Modelled from the spec: `Configuring → Sampling`, taken once the
configuration has been applied; a session in any other state is left
unchanged. -/
def Session.start_sampling (s : Session) : Session :=
  match s.state with
  | SessionState.configuring => { s with state := SessionState.sampling }
  | _ => s

/-- Modelled from the spec: one tick of the `Sampling` loop: perform one
full sweep; transient per-sensor failures are tolerated and reported
inline; a total transport failure increments the consecutive-timeout count
and, once the retry budget is exhausted, forces the terminal `Stopped`
state and releases the Device Handle.  Ticks in any other state do
nothing. -/
def Session.tick (s : Session) (t : Transport) (now : Nat) : Session :=
  match s.state with
  | SessionState.sampling =>
      let sw := s.registry.sample_all t now
      if sweepTotalFailure sw then
        let c := s.consecTimeouts + 1
        if s.retryBudget ≤ c then
          { s with state := SessionState.stopped
                   handle := close s.handle
                   consecTimeouts := c }
        else { s with consecTimeouts := c }
      else { s with consecTimeouts := 0 }
  | _ => s

/-- Modelled from the spec: running the polling loop for `n` ticks, each
tick one full sweep (the tick index serves as the timestamp). -/
def Session.runTicks (s : Session) (t : Transport) : Nat → Session
  | 0 => s
  | Nat.succ n => (s.tick t n).runTicks t n

/-- Keys of the sample dictionary consumed by the example scripts
(`data["success"]`, `data["x"]`, ..., `data["rotation_matrix"]`). -/
inductive DictField where
  | successKey
  | xKey
  | yKey
  | zKey
  | quaternionKey
  | azimuthKey
  | elevationKey
  | rollKey
  | rotationMatrixKey
deriving DecidableEq

/-- Whether a dictionary key is part of the pose payload (everything except
the `success` flag). -/
def DictField.isPoseField : DictField → Bool
  | DictField.successKey => false
  | _ => true

/-- The observable shape of a sample dictionary as the example scripts test
it: the truthiness of `data["success"]` and the results of the key-membership
tests `"quaternion" in data`, `"azimuth" in data`,
`"rotation_matrix" in data`. -/
structure SampleDict where
  success : Bool
  has_quaternion : Bool
  has_azimuth : Bool
  has_rotation_matrix : Bool
deriving DecidableEq

/-- The sequence of dictionary value reads performed by
`print_sensor_data(sensor_id, data, data_type)` in
`examples/trakstar_example.py` (lines 37-55): `data["success"]` is read
first; on the true branch `x`, `y`, `z` are read, then exactly one
orientation payload depending on `data_type` and key membership; on the
false branch only the failure message is printed. -/
def print_sensor_data_reads (data : SampleDict) (data_type : String) : List DictField :=
  DictField.successKey ::
    (if data.success then
      [DictField.xKey, DictField.yKey, DictField.zKey] ++
        (if data_type = "quaternion" && data.has_quaternion then
          [DictField.quaternionKey]
         else if data_type = "angles" && data.has_azimuth then
          [DictField.azimuthKey, DictField.elevationKey, DictField.rollKey]
         else if data_type = "matrix" && data.has_rotation_matrix then
          [DictField.rotationMatrixKey]
         else [])
     else [])

/-- The sequence of dictionary value reads performed on one sensor's result
inside the polling loop of `examples/simple_example.py` (lines 53-57):
`data["success"]` is tested, and only when it is true are `x`, `y`, `z` and
`quaternion` read. -/
def simple_loop_reads (data : SampleDict) : List DictField :=
  DictField.successKey ::
    (if data.success then
      [DictField.xKey, DictField.yKey, DictField.zKey, DictField.quaternionKey]
     else [])

/-! ### Helper lemmas -/

/-- A per-sensor sample always carries the requested sensor id. -/
theorem sample_sensor_id (r : Registry) (t : Transport) (now sid : Nat) :
    (r.sample t now sid).sensor_id = sid := by
  unfold Registry.sample
  cases r.sensors[sid]? with
  | none => rfl
  | some d => cases t sid <;> rfl

/-- On a transport failure the per-sensor sample is exactly the failure
marker for that sensor. -/
theorem sample_of_error (r : Registry) (t : Transport) (now sid : Nat) (e : TrakError)
    (ht : t sid = Except.error e) :
    r.sample t now sid =
      { sensor_id := sid, result := PoseResult.failed, timestamp := now } := by
  unfold Registry.sample
  cases r.sensors[sid]? with
  | none => rfl
  | some d => rw [ht]

/-- A per-sensor sample depends on the transport only through that sensor's
own read. -/
theorem sample_congr (r : Registry) (t t2 : Transport) (now sid : Nat)
    (hagree : t sid = t2 sid) :
    r.sample t now sid = r.sample t2 now sid := by
  unfold Registry.sample
  rw [hagree]

/-- The samples of a sweep, indexed. -/
theorem sample_all_getElem (r : Registry) (t : Transport) (now i : Nat) :
    ((r.sample_all t now).samples)[i]? =
      if i < r.sensors.length then some (r.sample t now i) else none := by
  unfold Registry.sample_all
  by_cases hi : i < r.sensors.length
  · simp [List.getElem?_map, List.getElem?_range, hi]
  · have hlen : r.sensors.length ≤ i := Nat.le_of_not_lt hi
    simp only [List.getElem?_map]
    rw [List.getElem?_eq_none_iff.mpr (by simpa using hlen)]
    simp [hi]

/-! ### Claim theorems: sensor registry -/

/-- C1: for every sensor count `N ≥ 0`, `sample_all` after
`enumerate_sensors` returns exactly `N` Pose Samples, one per enumerated
sensor and preserving enumeration order (the i-th sample carries sensor id
`i`, matching the i-th descriptor); the aggregate `success` flag is true
exactly when every element's `success` is true, and the full list of partial
results is returned regardless of the individual outcomes. -/
theorem sample_all_shape (attach : List Bool) (rate : Rat) (mr : MaxRange)
    (t : Transport) (now : Nat) :
    ((Registry.init (enumerate_sensors attach) rate mr).sample_all t now).samples.length
        = attach.length
    ∧ ((Registry.init (enumerate_sensors attach) rate mr).sample_all t now).samples.map
          PoseSample.sensor_id
        = (enumerate_sensors attach).map SensorDescriptor.id
    ∧ (((Registry.init (enumerate_sensors attach) rate mr).sample_all t now).success = true
        ↔ ∀ p ∈ ((Registry.init (enumerate_sensors attach) rate mr).sample_all t now).samples,
            p.success = true) := by
  refine ⟨?_, ?_, ?_⟩
  · simp [Registry.sample_all, Registry.init, enumerate_sensors]
  · simp only [Registry.sample_all, Registry.init, enumerate_sensors, List.map_map,
      List.length_map, List.length_range]
    refine List.map_congr_left ?_
    intro a _
    simp [Function.comp, sample_sensor_id]
  · simp [Registry.sample_all, List.all_eq_true]

/-- C2: a per-sensor read whose underlying transport read fails yields, in
the sweep, exactly the failure-marker sample for that sensor (`success`
false, no exception escapes: `sample` is total); and every other sensor's
sample depends only on its own read outcome: two transports agreeing on
sensor `j` give identical samples at `j`. -/
theorem sample_failure_isolated (r : Registry) (t t2 : Transport) (now i j : Nat)
    (e : TrakError) (hi : i < r.sensors.length) (hfail : t i = Except.error e)
    (hagree : t j = t2 j) :
    ((r.sample_all t now).samples)[i]? =
        some { sensor_id := i, result := PoseResult.failed, timestamp := now }
    ∧ ((r.sample_all t now).samples)[j]? = ((r.sample_all t2 now).samples)[j]? := by
  constructor
  · rw [sample_all_getElem, if_pos hi, sample_of_error r t now i e hfail]
  · rw [sample_all_getElem, sample_all_getElem]
    by_cases hj : j < r.sensors.length
    · rw [if_pos hj, if_pos hj, sample_congr r t t2 now j hagree]
    · rw [if_neg hj, if_neg hj]

/-- C3: setting the measurement rate to 100 succeeds and reading it back
yields exactly 100; setting any invalid rate (zero or negative) fails with
`InvalidParameter`, issues no config write, and leaves the registry — in
particular the previously stored rate — unchanged. -/
theorem measurement_rate_roundtrip (r : Registry) (rate : Rat) (hrate : rate ≤ 0) :
    (r.set_measurement_rate 100).registry.get_measurement_rate = 100
    ∧ (r.set_measurement_rate 100).err = none
    ∧ r.set_measurement_rate rate =
        { registry := r, writes := [], err := some TrakError.invalidParameter } := by
  have h100 : (0 : Rat) < 100 := by norm_num
  have hneg : ¬ (0 : Rat) < rate := not_lt.mpr hrate
  refine ⟨?_, ?_, ?_⟩
  · simp [Registry.set_measurement_rate, if_pos h100, Registry.get_measurement_rate]
  · simp [Registry.set_measurement_rate, if_pos h100]
  · simp [Registry.set_measurement_rate, if_neg hneg]

/-- C3 witness: instantiated at a concrete registry and the invalid rate
`-1`. -/
theorem measurement_rate_roundtrip_witness :
    (({ sensors := [], measurement_rate_hz := 80, max_range := MaxRange.inch36 } :
        Registry).set_measurement_rate 100).registry.get_measurement_rate = 100
    ∧ (({ sensors := [], measurement_rate_hz := 80, max_range := MaxRange.inch36 } :
        Registry).set_measurement_rate 100).err = none
    ∧ ({ sensors := [], measurement_rate_hz := 80, max_range := MaxRange.inch36 } :
        Registry).set_measurement_rate (-1) =
        { registry := { sensors := [], measurement_rate_hz := 80, max_range := MaxRange.inch36 }
          writes := []
          err := some TrakError.invalidParameter } :=
  measurement_rate_roundtrip
    { sensors := [], measurement_rate_hz := 80, max_range := MaxRange.inch36 }
    (-1) (by decide)

/-! ### Concrete demonstration values used by the witnesses -/

/-- A concrete two-sensor registry. -/
def demoRegistry : Registry :=
  { sensors :=
      [ { id := 0, attached := true, output_mode := OutputMode.quaternion
          hemisphere := Hemisphere.front }
      , { id := 1, attached := true, output_mode := OutputMode.eulerAngles
          hemisphere := Hemisphere.front } ]
    measurement_rate_hz := 100
    max_range := MaxRange.inch36 }

/-- A concrete raw sample. -/
def demoRaw : RawSample :=
  { px := 1, py := 2, pz := 3, q0 := 1, q1 := 0, q2 := 0, q3 := 0
    azimuth := 0, elevation := 0, roll := 0, mat := [] }

/-- A transport on which sensor 0 times out and every other sensor reads
successfully. -/
def demoMixedTransport : Transport := fun i =>
  if i = 0 then Except.error TrakError.readTimeout else Except.ok demoRaw

/-- A transport on which every sensor reads successfully. -/
def demoOkTransport : Transport := fun _ => Except.ok demoRaw

/-- A transport on which every read times out. -/
def demoTimeoutTransport : Transport := fun _ => Except.error TrakError.readTimeout

/-- C2 witness: on the two-sensor registry with sensor 0 timing out,
sensor 0's sweep entry is the failure marker, while sensor 1's entry is the
same as under a fully healthy transport that agrees on sensor 1. -/
theorem sample_failure_isolated_witness :
    ((demoRegistry.sample_all demoMixedTransport 0).samples)[0]? =
        some { sensor_id := 0, result := PoseResult.failed, timestamp := 0 }
    ∧ ((demoRegistry.sample_all demoMixedTransport 0).samples)[1]? =
        ((demoRegistry.sample_all demoOkTransport 0).samples)[1]? :=
  sample_failure_isolated demoRegistry demoMixedTransport demoOkTransport 0 0 1
    TrakError.readTimeout (by decide) rfl rfl

/-- C4: for every sensor id outside the enumerated range the per-sensor
configuration calls (`set_output_mode`, `set_hemisphere`) fail with
`UnknownSensor`, issue no write and leave the registry unchanged; for every
id inside the range `set_output_mode` succeeds, updates that sensor's
descriptor to the new mode, and issues the corresponding `write_config`. -/
theorem set_output_mode_range_check (r : Registry) (sid : Nat) (m : OutputMode)
    (hem : Hemisphere) :
    (r.sensors.length ≤ sid →
        r.set_output_mode sid m =
            { registry := r, writes := [], err := some TrakError.unknownSensor }
        ∧ r.set_sensor_hemisphere sid hem =
            { registry := r, writes := [], err := some TrakError.unknownSensor })
    ∧ (sid < r.sensors.length →
        (r.set_output_mode sid m).err = none
        ∧ (r.set_output_mode sid m).writes = [ConfigWrite.outputMode sid m]
        ∧ (r.set_output_mode sid m).registry.sensors[sid]? =
            (r.sensors[sid]?).map fun d => { d with output_mode := m }) := by
  constructor
  · intro hle
    have hnone : r.sensors[sid]? = none := List.getElem?_eq_none_iff.mpr hle
    constructor
    · unfold Registry.set_output_mode
      rw [hnone]
    · unfold Registry.set_sensor_hemisphere
      rw [hnone]
  · intro hlt
    have hsome : r.sensors[sid]? = some r.sensors[sid] := List.getElem?_eq_getElem hlt
    unfold Registry.set_output_mode
    rw [hsome]
    refine ⟨rfl, rfl, ?_⟩
    simp [List.getElem?_set_self, hlt, hsome]

/-- C4 witness: on the concrete two-sensor registry, sensor id 5 is rejected
with `UnknownSensor` and sensor id 0 is reconfigured successfully. -/
theorem set_output_mode_range_check_witness :
    demoRegistry.set_output_mode 5 OutputMode.rotationMatrix =
        { registry := demoRegistry, writes := [], err := some TrakError.unknownSensor }
    ∧ (demoRegistry.set_output_mode 0 OutputMode.rotationMatrix).err = none :=
  ⟨((set_output_mode_range_check demoRegistry 5 OutputMode.rotationMatrix
      Hemisphere.front).1 (by decide)).1,
   ((set_output_mode_range_check demoRegistry 0 OutputMode.rotationMatrix
      Hemisphere.front).2 (by decide)).1⟩

/-- C5: configuring the output mode of sensor `i` leaves the full descriptor
of every other sensor `j ≠ i` (attached flag, output mode and hemisphere
included) unchanged. -/
theorem set_output_mode_isolated (r : Registry) (i j : Nat) (m : OutputMode)
    (hij : i ≠ j) :
    (r.set_output_mode i m).registry.sensors[j]? = r.sensors[j]? := by
  unfold Registry.set_output_mode
  cases h : r.sensors[i]? with
  | none => rfl
  | some d => simp [List.getElem?_set_ne hij]

/-- C5 witness: reconfiguring sensor 0 on the concrete registry leaves
sensor 1's descriptor untouched. -/
theorem set_output_mode_isolated_witness :
    (demoRegistry.set_output_mode 0 OutputMode.rotationMatrix).registry.sensors[1]? =
      demoRegistry.sensors[1]? :=
  set_output_mode_isolated demoRegistry 0 1 OutputMode.rotationMatrix (by decide)

/-! ### Session lifecycle lemmas -/

/-- Under a transport on which every read times out, a sweep over at least
one sensor is a total transport failure. -/
theorem sample_all_timeout_total (r : Registry) (t : Transport) (now : Nat)
    (hs : 0 < r.sensors.length)
    (ht : ∀ i, t i = Except.error TrakError.readTimeout) :
    sweepTotalFailure (r.sample_all t now) = true := by
  unfold sweepTotalFailure
  rw [Bool.and_eq_true]
  constructor
  · have hne : ((r.sample_all t now).samples) ≠ [] := by
      intro hnil
      have hlen : ((r.sample_all t now).samples).length = r.sensors.length := by
        simp [Registry.sample_all]
      rw [hnil] at hlen
      simp at hlen
      omega
    simp [List.isEmpty_eq_false, hne]
  · rw [List.all_eq_true]
    intro p hp
    simp only [Registry.sample_all, List.mem_map, List.mem_range] at hp
    obtain ⟨i, _, rfl⟩ := hp
    rw [sample_of_error r t now i TrakError.readTimeout (ht i)]
    rfl

/-- A tick in a non-`Sampling` state — in particular the terminal `Failed`
state — does nothing. -/
theorem tick_failed (s : Session) (u : Transport) (now : Nat)
    (h : s.state = SessionState.failed) : s.tick u now = s := by
  unfold Session.tick
  rw [h]

/-- A tick in the terminal `Stopped` state does nothing. -/
theorem tick_stopped (s : Session) (u : Transport) (now : Nat)
    (h : s.state = SessionState.stopped) : s.tick u now = s := by
  unfold Session.tick
  rw [h]

/-- `start_sampling` does nothing on a session in the terminal `Failed`
state. -/
theorem start_sampling_failed (s : Session)
    (h : s.state = SessionState.failed) : s.start_sampling = s := by
  unfold Session.start_sampling
  rw [h]

/-- Running the loop under an all-timeout transport for exactly the number
of ticks left in the retry budget ends in `Stopped` with the handle closed
once; the registry, handle history and budget are otherwise untouched. -/
theorem runTicks_all_timeout (t : Transport)
    (ht : ∀ i, t i = Except.error TrakError.readTimeout) :
    ∀ (n : Nat) (s : Session), s.state = SessionState.sampling →
      0 < s.registry.sensors.length →
      s.retryBudget = s.consecTimeouts + (n + 1) →
      s.runTicks t (n + 1) =
        { s with state := SessionState.stopped
                 handle := close s.handle
                 consecTimeouts := s.retryBudget } := by
  intro n
  induction n with
  | zero =>
    intro s hst hs hb
    obtain ⟨st, reg, h, ct, rb⟩ := s
    simp only at hst hs hb
    subst hst
    show (Session.tick _ t 0).runTicks t 0 = _
    simp only [Session.tick, sample_all_timeout_total reg t 0 hs ht, if_true]
    rw [hb]
    simp [Session.runTicks]
  | succ k ih =>
    intro s hst hs hb
    obtain ⟨st, reg, h, ct, rb⟩ := s
    simp only at hst hs hb
    subst hst
    show (Session.tick _ t (k + 1)).runTicks t (k + 1) = _
    simp only [Session.tick, sample_all_timeout_total reg t (k + 1) hs ht, if_true]
    rw [if_neg (by omega : ¬ rb ≤ ct + 1)]
    exact ih ⟨SessionState.sampling, reg, h, ct + 1, rb⟩ rfl hs (by dsimp only; omega)

/-! ### Claim theorems: session lifecycle -/

/-- C6: when every `read_raw` call times out, a session sampling with a
positive retry budget reaches the terminal `Stopped` state after exactly the
budgeted number of ticks, having released the Device Handle exactly once; the
state is terminal (further ticks do nothing) and a second release is a
no-op. -/
theorem fatal_timeout_stops (s : Session) (t : Transport) (b : Nat)
    (hst : s.state = SessionState.sampling)
    (hopen : s.handle.isOpen = true)
    (hrel : s.handle.releaseCount = 0)
    (hc : s.consecTimeouts = 0)
    (hb : s.retryBudget = b)
    (hb1 : 1 ≤ b)
    (hs : 0 < s.registry.sensors.length)
    (ht : ∀ i, t i = Except.error TrakError.readTimeout) :
    (s.runTicks t b).state = SessionState.stopped
    ∧ (s.runTicks t b).handle.releaseCount = 1
    ∧ (s.runTicks t b).handle.isOpen = false
    ∧ close (s.runTicks t b).handle = (s.runTicks t b).handle
    ∧ (∀ u now, (s.runTicks t b).tick u now = s.runTicks t b) := by
  obtain ⟨n, rfl⟩ : ∃ n, b = n + 1 := ⟨b - 1, (Nat.succ_pred_eq_of_pos hb1).symm⟩
  have hrun := runTicks_all_timeout t ht n s hst hs (by omega)
  have hclose : close s.handle = { isOpen := false, releaseCount := 1 } := by
    unfold close
    rw [if_pos hopen, hrel]
  rw [hrun]
  refine ⟨rfl, ?_, ?_, ?_, ?_⟩
  · simp [hclose]
  · simp [hclose]
  · rw [hclose]
    simp [close]
  · intro u now
    exact tick_stopped _ u now rfl

/-- A concrete session sampling over the two-sensor registry with an open
handle and a retry budget of 2. -/
def demoSamplingSession : Session :=
  { state := SessionState.sampling
    registry := demoRegistry
    handle := { isOpen := true, releaseCount := 0 }
    consecTimeouts := 0
    retryBudget := 2 }

/-- C6 witness: the concrete sampling session under the all-timeout
transport stops within its budget of 2 ticks with exactly one release. -/
theorem fatal_timeout_stops_witness :
    (demoSamplingSession.runTicks demoTimeoutTransport 2).state = SessionState.stopped
    ∧ (demoSamplingSession.runTicks demoTimeoutTransport 2).handle.releaseCount = 1
    ∧ (demoSamplingSession.runTicks demoTimeoutTransport 2).handle.isOpen = false
    ∧ close (demoSamplingSession.runTicks demoTimeoutTransport 2).handle =
        (demoSamplingSession.runTicks demoTimeoutTransport 2).handle :=
  have h := fatal_timeout_stops demoSamplingSession demoTimeoutTransport 2
    rfl rfl rfl rfl rfl (by decide) (by decide) (fun _ => rfl)
  ⟨h.1, h.2.1, h.2.2.1, h.2.2.2.1⟩

/-- C7: `close` is idempotent — closing twice equals closing once — a close
on a handle that holds no resource is a no-op, and in particular closing
the handle left by a failed `open` is a safe no-op. -/
theorem close_idempotent_safe (h : Handle) :
    close (close h) = close h
    ∧ (h.isOpen = false → close h = h)
    ∧ close (open_handle false).1 = (open_handle false).1 := by
  refine ⟨?_, ?_, ?_⟩
  · by_cases hop : h.isOpen
    · simp [close, hop]
    · simp [close, hop]
  · intro hop
    simp [close, hop]
  · rfl

/-- C7 witness: closing an already-closed concrete handle is a no-op, and
double close equals single close on a concrete open handle. -/
theorem close_idempotent_safe_witness :
    close { isOpen := false, releaseCount := 1 } =
        ({ isOpen := false, releaseCount := 1 } : Handle)
    ∧ close (close { isOpen := true, releaseCount := 0 }) =
        close ({ isOpen := true, releaseCount := 0 } : Handle) :=
  ⟨(close_idempotent_safe { isOpen := false, releaseCount := 1 }).2.1 rfl,
   (close_idempotent_safe { isOpen := true, releaseCount := 0 }).1⟩

/-- C8: if `open()` fails, or it succeeds but zero sensors are enumerated,
the session ends in the terminal `Failed` state with the failure surfaced to
the caller, and it never enters `Configuring` or `Sampling`: ticking does
nothing and the `Configuring → Sampling` transition is not available. -/
theorem failed_open_terminal (avail : Bool) (attach : List Bool) (rate : Rat)
    (mr : MaxRange) (budget : Nat)
    (hfail : avail = false ∨ attach = []) :
    (open_session avail attach rate mr budget).1.state = SessionState.failed
    ∧ ((open_session avail attach rate mr budget).2).isSome = true
    ∧ (∀ u now, ((open_session avail attach rate mr budget).1).tick u now =
        (open_session avail attach rate mr budget).1)
    ∧ ((open_session avail attach rate mr budget).1).start_sampling =
        (open_session avail attach rate mr budget).1 := by
  have hstate : (open_session avail attach rate mr budget).1.state
      = SessionState.failed := by
    rcases hfail with h | h
    · subst h
      rfl
    · subst h
      cases avail <;> rfl
  refine ⟨hstate, ?_, ?_, ?_⟩
  · rcases hfail with h | h
    · subst h
      rfl
    · subst h
      cases avail <;> rfl
  · intro u now
    exact tick_failed _ u now hstate
  · exact start_sampling_failed _ hstate

/-- C8 witness: a concretely failed open ends in `Failed`, surfaces an
error, and a concrete tick leaves the session unchanged. -/
theorem failed_open_terminal_witness :
    (open_session false [true] 100 MaxRange.inch36 3).1.state = SessionState.failed
    ∧ ((open_session false [true] 100 MaxRange.inch36 3).2).isSome = true
    ∧ (open_session false [true] 100 MaxRange.inch36 3).1.tick demoOkTransport 0 =
        (open_session false [true] 100 MaxRange.inch36 3).1 :=
  have h := failed_open_terminal false [true] 100 MaxRange.inch36 3 (Or.inl rfl)
  ⟨h.1, h.2.1, h.2.2.1 demoOkTransport 0⟩

/-! ### Claim theorems: Pose Sample shape and the example scripts -/

/-- C9: every Pose Sample carries a tagged result — either valid typed pose
data or the failure marker, never both — and its `success` flag is derived
from the variant tag (`success` holds exactly when the sample carries pose
data). -/
theorem pose_sample_tagged (p : PoseSample) :
    (p.success = true ↔ ∃ d, p.result = PoseResult.ok d)
    ∧ ¬(p.result = PoseResult.failed ∧ ∃ d, p.result = PoseResult.ok d) := by
  cases hp : p.result with
  | ok d => simp [PoseSample.success, hp]
  | failed => simp [PoseSample.success, hp]

/-- C10: on the failure branch — a sample dictionary whose `success` flag is
false — the consuming code of both example scripts reads only the `success`
key: `print_sensor_data` and the simple-example polling loop body access no
pose payload field (`x`, `y`, `z`, `quaternion`, angles or matrix). -/
theorem failure_branch_reads_no_pose_fields (data : SampleDict) (data_type : String)
    (hfail : data.success = false) :
    print_sensor_data_reads data data_type = [DictField.successKey]
    ∧ simple_loop_reads data = [DictField.successKey]
    ∧ ∀ f ∈ print_sensor_data_reads data data_type ++ simple_loop_reads data,
        f.isPoseField = false := by
  refine ⟨?_, ?_, ?_⟩
  · simp [print_sensor_data_reads, hfail]
  · simp [simple_loop_reads, hfail]
  · intro f hf
    simp [print_sensor_data_reads, simple_loop_reads, hfail] at hf
    subst hf
    rfl

/-- C10 witness: a concrete failed sample dictionary, printed in quaternion
mode, yields only the `success` read in both scripts. -/
theorem failure_branch_reads_no_pose_fields_witness :
    print_sensor_data_reads
        { success := false, has_quaternion := true, has_azimuth := true
          has_rotation_matrix := true } "quaternion" = [DictField.successKey]
    ∧ simple_loop_reads
        { success := false, has_quaternion := true, has_azimuth := true
          has_rotation_matrix := true } = [DictField.successKey] :=
  have h := failure_branch_reads_no_pose_fields
    { success := false, has_quaternion := true, has_azimuth := true
      has_rotation_matrix := true } "quaternion" rfl
  ⟨h.1, h.2.1⟩

end Pytrak
